import Mathlib

/-!
# Verification of the NLP result renderer and prediction form of the
# HR Absenteeism Predictor frontend

Shallow embedding of `frontend/src/pages/NLPQuery.tsx` (the NLP query page
and the Predictions page) against the natural-language specification.

JavaScript runtime values are modelled by `JVal`.  JS numbers are modelled
as integers plus an explicit `nan`; every value the claims exercise is an
integer, and the floating-point aspects of JS numbers play no role in any
claim.  Property access on `null`/`undefined` raises a `TypeError`, which we
model with `Except`.
-/

namespace HRApp

/-- A JavaScript runtime value, as far as the rendering code observes it.
`nan` stands for the JS number NaN; `num` covers the (integer) numbers the
claims exercise.  `obj` is an ordered association list, matching JS object
insertion order (`Object.entries` iteration order for string keys). -/
inductive JVal where
  | null : JVal
  | undefined : JVal
  | boolV : Bool → JVal
  | num : Int → JVal
  | nan : JVal
  | str : String → JVal
  | arr : List JVal → JVal
  | obj : List (String × JVal) → JVal

/-- Runtime errors the embedded code can raise.  The only one reachable in
this fragment is the `TypeError` raised by accessing a property of
`null`/`undefined`. -/
inductive JSError where
  | typeError : JSError
deriving Repr, DecidableEq

namespace JVal

/-- Nullish values: the two the JS `??` operator skips over. -/
def isNullish : JVal → Bool
  | .null => true
  | .undefined => true
  | _ => false

/-- JS truthiness: `false`, `0`, `NaN`, `""`, `null`, `undefined` are falsy. -/
def truthy : JVal → Bool
  | .null => false
  | .undefined => false
  | .boolV b => b
  | .num n => n ≠ 0
  | .nan => false
  | .str s => s ≠ ""
  | .arr _ => true
  | .obj _ => true

/-- `Array.isArray`. -/
def isArr : JVal → Bool
  | .arr _ => true
  | _ => false

/-- `typeof v === 'object'` (true for objects, arrays and `null`). -/
def typeofObject : JVal → Bool
  | .obj _ => true
  | .arr _ => true
  | .null => true
  | _ => false

end JVal

/-- JS property access `v[k]`: raises `TypeError` on `null`/`undefined`,
looks the key up on objects (missing keys give `undefined`), and gives
`undefined` on the remaining primitives/arrays (no property named by the
string keys this code uses exists on them). -/
def getField (v : JVal) (k : String) : Except JSError JVal :=
  match v with
  | .null => .error .typeError
  | .undefined => .error .typeError
  | .obj fs => .ok ((fs.lookup k).getD .undefined)
  | _ => .ok .undefined

/-- JS `Number(v)` conversion, restricted to the integer fragment of JS
numbers: `null → 0`, booleans to 0/1, numbers unchanged, `undefined → NaN`,
the empty string and empty array to 0.  Conversion of non-empty strings,
arrays and objects is abstracted to `NaN` (the code under verification never
converts those); the conversion is total, as in JS. -/
def toNumber : JVal → JVal
  | .null => .num 0
  | .undefined => .nan
  | .boolV b => .num (if b then 1 else 0)
  | .num n => .num n
  | .nan => .nan
  | .str s => if s = "" then .num 0 else .nan
  | .arr [] => .num 0
  | .arr (_ :: _) => .nan
  | .obj _ => .nan

/-- JS `String(v)` conversion.  Faithful on the primitives; array elements
are joined with "," (nullish elements contributing the empty string) and
objects print as "[object Object]". -/
def jsToString : JVal → String
  | .null => "null"
  | .undefined => "undefined"
  | .boolV b => if b then "true" else "false"
  | .num n => toString n
  | .nan => "NaN"
  | .str s => s
  | .arr xs => String.intercalate ","
      (xs.map fun x => if x.isNullish then "" else jsToStringAux x)
  | .obj _ => "[object Object]"
where
  /-- One-level auxiliary for array elements (nested arrays are rare and
  print their own elements; depth one suffices for this code, which never
  stringifies arrays). -/
  jsToStringAux : JVal → String
  | .null => "null"
  | .undefined => "undefined"
  | .boolV b => if b then "true" else "false"
  | .num n => toString n
  | .nan => "NaN"
  | .str s => s
  | .arr _ => ""
  | .obj _ => "[object Object]"

/-- `Object.entries(v)` for the non-nullish values it is applied to in this
code: an object's own entries in insertion order, an array's indexed
elements, a string's indexed characters, and `[]` for the remaining
primitives.  Call sites guard with truthiness, so nullish input (which would
throw in JS) is unreachable; it is mapped to `[]`. -/
def jsEntries : JVal → List (String × JVal)
  | .obj fs => fs
  | .arr xs => (List.range xs.length).zip xs |>.map fun p => (toString p.1, p.2)
  | .str s => (List.range s.length).zip s.data |>.map
      fun p => (toString p.1, .str (String.mk [p.2]))
  | _ => []

/-- Strict equality `v === 's'` against a string literal. -/
def strictEqStr (v : JVal) (s : String) : Bool :=
  match v with
  | .str t => t = s
  | _ => false

/-- Effectful map over a list in the `Except` monad, left to right, first
error wins — the evaluation order of `Array.prototype.map` over a callback
that can throw. -/
def exceptMapM {α β : Type} (f : α → Except JSError β) : List α → Except JSError (List β)
  | [] => .ok []
  | x :: xs => do
    let y ← f x
    let ys ← exceptMapM f xs
    pure (y :: ys)

/-! ## TableResult (NLPQuery.tsx) -/

/-- One `??`-chain cell of `TableResult`:
`record[labeled] ?? record[snake] ?? '-'`, with JS short-circuit evaluation
(the second access only happens when the first is nullish). -/
def pickCell (r : JVal) (labeled snake : String) : Except JSError JVal := do
  let a ← getField r labeled
  if a.isNullish then
    let b ← getField r snake
    if b.isNullish then pure (.str "-") else pure b
  else
    pure a

/-- One rendered row of the table: the five cells, in column order.  The
Reason cell is wrapped in `String(...)` by the source, hence a `String`. -/
structure TableRow where
  idCell : JVal
  ageCell : JVal
  serviceCell : JVal
  reasonCell : String
  hoursCell : JVal

/-- Rendering of one record by `TableResult`'s row template. -/
def renderRow (r : JVal) : Except JSError TableRow := do
  let i ← pickCell r "ID" "id"
  let a ← pickCell r "Age" "age"
  let s ← pickCell r "Service time" "service_time"
  let re ← pickCell r "Reason for absence" "reason_for_absence"
  let h ← pickCell r "Absenteeism time in hours" "absenteeism_hours"
  pure ⟨i, a, s, jsToString re, h⟩

/-- What `TableResult` puts on the screen: either the fixed placeholder
paragraph, or a table of rows together with the optional
"Showing 10 of n results" note (carrying n when shown). -/
inductive TableRender where
  | noResults : String → TableRender
  | table : List TableRow → Option Nat → TableRender

/-- `TableResult({data})`: non-arrays and empty arrays give the placeholder;
otherwise the first 10 records are rendered and a note appears when more
than 10 records arrived. -/
def renderTable (data : JVal) : Except JSError TableRender :=
  match data with
  | .arr records =>
    if records.length = 0 then
      .ok (.noResults "No results found.")
    else do
      let rows ← exceptMapM renderRow (records.take 10)
      pure (.table rows (if records.length > 10 then some records.length else none))
  | _ => .ok (.noResults "No results found.")

/-! ## MetricResult (NLPQuery.tsx) -/

/-- What `MetricResult` puts on the screen: the big value, the label, and —
only when `data.sample_size` is truthy — the "Based on n records" note. -/
structure MetricRender where
  value : JVal
  label : JVal
  sampleNote : Option JVal

/-- `MetricResult({data})`: reads `data.value`, `data.label` and
`data.sample_size` directly (throwing on a nullish payload); no guard or
placeholder exists in this component. -/
def renderMetric (data : JVal) : Except JSError MetricRender := do
  let v ← getField data "value"
  let l ← getField data "label"
  let s ← getField data "sample_size"
  pure ⟨v, l, if s.truthy then some s else none⟩

/-! ## ChartResult (NLPQuery.tsx) -/

/-- The uniform series `ChartResult` builds: `{name, value}` points.  The
grouped branch produces `(String(key), Number(value))`; the trend and
comparison branches copy `d.period`/`stats.mean` unconverted, so the
components are kept as raw `JVal`s. -/
def chartPoints (data : JVal) : Except JSError (List (JVal × JVal)) := do
  let ty ← getField data "type"
  if strictEqStr ty "grouped" then
    let groups ← getField data "groups"
    if groups.truthy then
      pure ((jsEntries groups).map fun kv => (JVal.str kv.1, toNumber kv.2))
    else
      pure []
  else if strictEqStr ty "trend" then
    let d ← getField data "data"
    match d with
    | .arr xs =>
      exceptMapM (fun x => do
        let p ← getField x "period"
        let m ← getField x "mean"
        pure (p, m)) xs
    | _ => pure []
  else if strictEqStr ty "comparison" then
    let d ← getField data "data"
    if d.truthy && d.typeofObject then
      exceptMapM (fun kv => do
        let m ← getField kv.2 "mean"
        pure (JVal.str kv.1, m)) (jsEntries d)
    else
      pure []
  else
    pure []

/-- What `ChartResult` puts on the screen: the fixed placeholder paragraph
when the extracted series is empty, the bar chart over the series
otherwise. -/
inductive ChartRender where
  | noData : String → ChartRender
  | chart : List (JVal × JVal) → ChartRender

/-- `ChartResult({data})`. -/
def renderChart (data : JVal) : Except JSError ChartRender := do
  let pts ← chartPoints data
  if pts.length = 0 then
    pure (.noData "Unable to visualize this data.")
  else
    pure (.chart pts)

/-! ## renderResult dispatcher and the NLP response type -/

/-- `NLPQueryResponse` from the frontend types module.  `data` is `unknown`
in the source, hence a raw `JVal`; `confidence` is a JS number used only for
display. -/
structure NLPQueryResponse where
  success : Bool
  intent : String
  confidence : JVal
  result_type : String
  data : JVal
  message : String
  interpretation : String
  suggestions : List String

/-- The `text` case of `renderResult`: when `data` is a non-null object with
a `response` key, show `String(data.response)`, otherwise show `message`.
(`typeof data === 'object'` also admits arrays, which have no `response`
key, and `null`, which the source excludes explicitly; this branch never
throws.) -/
def renderText (d : JVal) (message : String) : String :=
  match d with
  | .obj fs =>
    match fs.lookup "response" with
    | some v => jsToString v
    | none => message
  | _ => message

/-- What `renderResult` puts on the screen, by branch. -/
inductive Rendered where
  | table : TableRender → Rendered
  | metric : MetricRender → Rendered
  | chart : ChartRender → Rendered
  | text : String → Rendered
  | fallback : String → Rendered

/-- The `switch (response.result_type)` dispatcher of the NLP query page. -/
def renderResult (r : NLPQueryResponse) : Except JSError Rendered :=
  if r.result_type = "table" then do
    let t ← renderTable r.data
    pure (.table t)
  else if r.result_type = "metric" then do
    let m ← renderMetric r.data
    pure (.metric m)
  else if r.result_type = "chart_data" then do
    let c ← renderChart r.data
    pure (.chart c)
  else if r.result_type = "text" then
    .ok (.text (renderText r.data r.message))
  else
    .ok (.fallback r.message)

/-- Whitespace as JS `String.prototype.trim` strips it (ASCII fragment:
space, tab, newline, carriage return; the exotic Unicode space characters
play no role in any claim). -/
def isWs (c : Char) : Bool :=
  c = ' ' || c = '\t' || c = '\n' || c = '\r'

/-- JS `s.trim()`: strip leading and trailing whitespace. -/
def jsTrim (s : String) : String :=
  .mk (((s.data.dropWhile isWs).reverse.dropWhile isWs).reverse)

/-! ## NLPQuery page state: query text and history -/

/-- The component state of `NLPQuery`: the controlled input text and the
history list of `(query, response)` pairs. -/
structure NLPState where
  query : String
  history : List (String × NLPQueryResponse)

/-- `mutation.onSuccess`: prepend `{query, response}` (with the current
`query` state) to the history and clear the input. -/
def onSuccess (s : NLPState) (response : NLPQueryResponse) : NLPState :=
  { query := "", history := (s.query, response) :: s.history }

/-- `handleSubmit` followed by a successful round trip, as one step:
a blank (whitespace-only) query fires no mutation and leaves the state
unchanged; otherwise the trimmed query is sent to the server and
`onSuccess` runs on the response.  The second component is the request
actually sent, if any.  (Whitespace is modelled as ASCII whitespace; the
claims only use it for "blank vs. non-blank".) -/
def submit (s : NLPState) (server : String → NLPQueryResponse) :
    NLPState × Option String :=
  if jsTrim s.query = "" then
    (s, none)
  else
    (onSuccess s (server (jsTrim s.query)), some (jsTrim s.query))

/-- The user types `q` into the input (replacing its content) and submits;
the server answers every request via `server`. -/
def typeAndSubmit (s : NLPState) (q : String) (server : String → NLPQueryResponse) :
    NLPState :=
  (submit { s with query := q } server).1

/-! ## Predictions page: form schema and result state -/

/-- `PredictionInput` from the frontend types module.  The form parses every
field with `valueAsNumber`; the claims exercise integer values only. -/
structure PredictionInput where
  reason_for_absence : Int
  month_of_absence : Int
  day_of_week : Int
  seasons : Int
  transportation_expense : Int
  distance_from_residence : Int
  service_time : Int
  age : Int
  workload_average : Int
  hit_target : Int
  disciplinary_failure : Int
  education : Int
  son : Int
  social_drinker : Int
  social_smoker : Int
  pet : Int
  weight : Int
  height : Int
  bmi : Int

/-- The zod `predictionSchema` of the Predictions page: every `.min`/`.max`
bound, field by field. -/
def validatePrediction (p : PredictionInput) : Bool :=
  (0 ≤ p.reason_for_absence && p.reason_for_absence ≤ 28) &&
  (1 ≤ p.month_of_absence && p.month_of_absence ≤ 12) &&
  (2 ≤ p.day_of_week && p.day_of_week ≤ 6) &&
  (1 ≤ p.seasons && p.seasons ≤ 4) &&
  (0 ≤ p.transportation_expense) &&
  (0 ≤ p.distance_from_residence) &&
  (0 ≤ p.service_time) &&
  (18 ≤ p.age && p.age ≤ 70) &&
  (0 ≤ p.workload_average) &&
  (0 ≤ p.hit_target && p.hit_target ≤ 100) &&
  (0 ≤ p.disciplinary_failure && p.disciplinary_failure ≤ 1) &&
  (1 ≤ p.education && p.education ≤ 4) &&
  (0 ≤ p.son) &&
  (0 ≤ p.social_drinker && p.social_drinker ≤ 1) &&
  (0 ≤ p.social_smoker && p.social_smoker ≤ 1) &&
  (0 ≤ p.pet) &&
  (0 ≤ p.weight) &&
  (0 ≤ p.height) &&
  (0 ≤ p.bmi)

/-- The schema's age rule in isolation: a field error is reported on `age`
exactly when it violates `z.number().min(18).max(70)`. -/
def ageFieldError (p : PredictionInput) : Bool :=
  !(18 ≤ p.age && p.age ≤ 70)

/-- `handleSubmit(onSubmit)` of react-hook-form with the zod resolver: the
payload handed to `mutation.mutate` when validation passes, `none` (no
network call, errors populated) when it fails. -/
def formSubmit (p : PredictionInput) : Option PredictionInput :=
  if validatePrediction p then some p else none

/-- `FeatureFactor` from the frontend types module. -/
structure FeatureFactor where
  feature : String
  contribution : Int
  direction : String
  description : String

/-- `PredictionResult` from the frontend types module (numeric fields as the
integer fragment of JS numbers). -/
structure PredictionResult where
  predicted_hours : Int
  risk_level : String
  confidence_interval : Int × Int
  feature_contributions : List (String × Int)
  top_factors : List FeatureFactor
  explanation : String
  explanation_source : String
  timestamp : String

/-- `mutation.onSuccess` of the Predictions page: `setResult(data)` — the
displayed result becomes the server response, whatever was displayed
before. -/
def predOnSuccess (_displayed : Option PredictionResult) (data : PredictionResult) :
    Option PredictionResult :=
  some data

/-- One full prediction submission: validation gates the network call; on a
successful response the displayed result is updated by `predOnSuccess`; a
rejected form leaves the display unchanged. -/
def predictStep (displayed : Option PredictionResult) (input : PredictionInput)
    (server : PredictionInput → PredictionResult) : Option PredictionResult :=
  match formSubmit input with
  | some p => predOnSuccess displayed (server p)
  | none => displayed

/-! ## Null-freedom (for the totality analysis of the renderer) -/

mutual

/-- `v` contains no `null`/`undefined` anywhere (in itself, in array
elements, in object values, recursively). -/
def nullFree : JVal → Bool
  | .null => false
  | .undefined => false
  | .boolV _ => true
  | .num _ => true
  | .nan => true
  | .str _ => true
  | .arr xs => nullFreeList xs
  | .obj fs => nullFreeFields fs

/-- All elements of the list are `nullFree`. -/
def nullFreeList : List JVal → Bool
  | [] => true
  | x :: xs => nullFree x && nullFreeList xs

/-- All values of the association list are `nullFree`. -/
def nullFreeFields : List (String × JVal) → Bool
  | [] => true
  | (_, v) :: fs => nullFree v && nullFreeFields fs

end

/-! ## Helper lemmas -/

/-- Pure value of a property access on a non-nullish receiver. -/
def getFieldD (v : JVal) (k : String) : JVal :=
  match v with
  | .obj fs => (fs.lookup k).getD .undefined
  | _ => .undefined

theorem getField_eq_ok {v : JVal} (k : String) (h : v.isNullish = false) :
    getField v k = .ok (getFieldD v k) := by
  cases v <;> simp_all [getField, getFieldD, JVal.isNullish]

@[simp] theorem ok_bind {α β : Type} (a : α) (f : α → Except JSError β) :
    (Except.ok a : Except JSError α) >>= f = f a := rfl

@[simp] theorem err_bind {α β : Type} (e : JSError) (f : α → Except JSError β) :
    (Except.error e : Except JSError α) >>= f = .error e := rfl

@[simp] theorem ok_map {α β : Type} (g : α → β) (a : α) :
    g <$> (Except.ok a : Except JSError α) = .ok (g a) := rfl

@[simp] theorem err_map {α β : Type} (g : α → β) (e : JSError) :
    g <$> (Except.error e : Except JSError α) = .error e := rfl

@[simp] theorem pure_ok {α : Type} (a : α) :
    (pure a : Except JSError α) = .ok a := rfl

theorem exceptMapM_ok_of_forall {α β : Type} (f : α → Except JSError β)
    (xs : List α) (h : ∀ x ∈ xs, ∃ y, f x = .ok y) :
    ∃ ys, exceptMapM f xs = .ok ys := by
  induction xs with
  | nil => exact ⟨[], rfl⟩
  | cons x xs ih =>
    obtain ⟨y, hy⟩ := h x (List.mem_cons_self x xs)
    obtain ⟨ys, hys⟩ := ih fun a ha => h a (List.mem_cons_of_mem x ha)
    exact ⟨y :: ys, by simp [exceptMapM, hy, hys]⟩

theorem exceptMapM_length {α β : Type} (f : α → Except JSError β)
    (xs : List α) (ys : List β) (h : exceptMapM f xs = .ok ys) :
    ys.length = xs.length := by
  induction xs generalizing ys with
  | nil => simp [exceptMapM] at h; simp [← h]
  | cons x xs ih =>
    simp only [exceptMapM] at h
    cases hx : f x with
    | error e => simp [hx] at h
    | ok y =>
      simp only [hx] at h
      cases hxs : exceptMapM f xs with
      | error e => simp [hxs] at h
      | ok zs =>
        simp only [hxs] at h
        cases h
        simp [ih zs hxs]

/-! ## C1 -/

/-- C1: for a `chart_data` payload with `type: "grouped"`, `ChartResult`
produces one `{name, value}` point per entry of `groups`, keys as strings
and values through `Number(...)`, in insertion order; in particular for
`groups = {A: 1, B: 2}` it produces exactly
`[{name: "A", value: 1}, {name: "B", value: 2}]`. -/
theorem c1_grouped_chart_series :
    (∀ (fs g : List (String × JVal)),
      fs.lookup "type" = some (.str "grouped") →
      fs.lookup "groups" = some (.obj g) →
      chartPoints (.obj fs) =
        .ok (g.map fun kv => (JVal.str kv.1, toNumber kv.2))) ∧
    (∀ fs : List (String × JVal),
      fs.lookup "type" = some (.str "grouped") →
      fs.lookup "groups" = some (.obj [("A", .num 1), ("B", .num 2)]) →
      chartPoints (.obj fs) =
        .ok [(.str "A", .num 1), (.str "B", .num 2)]) := by
  constructor
  · intro fs g hty hg
    simp [chartPoints, getField, hty, hg, strictEqStr, JVal.truthy, jsEntries]
  · intro fs hty hg
    simp [chartPoints, getField, hty, hg, strictEqStr, JVal.truthy, jsEntries, toNumber]

/-- Witness for C1 at the payload `{type: "grouped", groups: {A: 1, B: 2}}`. -/
theorem c1_witness :
    chartPoints (.obj [("type", .str "grouped"),
                       ("groups", .obj [("A", .num 1), ("B", .num 2)])]) =
      .ok [(.str "A", .num 1), (.str "B", .num 2)] :=
  c1_grouped_chart_series.2
    [("type", .str "grouped"), ("groups", .obj [("A", .num 1), ("B", .num 2)])]
    rfl rfl

/-! ## C2 -/

/-- C2: a `table` response whose payload is the empty array — or any
non-array — renders the one fixed "No results found." placeholder,
independently of everything else in the response. -/
theorem c2_empty_table_placeholder (r : NLPQueryResponse)
    (hty : r.result_type = "table")
    (hdata : r.data = .arr [] ∨ r.data.isArr = false) :
    renderResult r = .ok (.table (.noResults "No results found.")) := by
  simp only [renderResult, hty, if_pos]
  rcases hdata with h | h
  · simp [h, renderTable]
  · cases hv : r.data <;> simp_all [JVal.isArr, renderTable]

/-- Witness for C2: a `table` response with an empty-array payload. -/
theorem c2_witness :
    renderResult ⟨true, "list_employees", .num 1, "table", .arr [],
                  "Found 0 employees", "interp", []⟩ =
      .ok (.table (.noResults "No results found.")) :=
  c2_empty_table_placeholder _ rfl (Or.inl rfl)

/-! ## C3 -/

/-- C3: after three successful queries typed and submitted in the order
`q1, q2, q3`, the history is `[q3, q2, q1]` (each paired with its server
response) and the earlier entries are untouched below the new ones. -/
theorem c3_history_prepend (s : NLPState) (q1 q2 q3 : String)
    (server : String → NLPQueryResponse)
    (h1 : jsTrim q1 ≠ "") (h2 : jsTrim q2 ≠ "") (h3 : jsTrim q3 ≠ "") :
    (typeAndSubmit (typeAndSubmit (typeAndSubmit s q1 server) q2 server) q3 server).history
      = (q3, server (jsTrim q3)) :: (q2, server (jsTrim q2)) :: (q1, server (jsTrim q1))
          :: s.history := by
  simp [typeAndSubmit, submit, onSuccess, h1, h2, h3]

/-- Witness for C3 with queries "a", "b", "c" from the empty state. -/
theorem c3_witness :
    (typeAndSubmit (typeAndSubmit (typeAndSubmit ⟨"", []⟩ "a"
        (fun q => ⟨true, "i", .num 1, "text", .null, q, "", []⟩)) "b"
        (fun q => ⟨true, "i", .num 1, "text", .null, q, "", []⟩)) "c"
        (fun q => ⟨true, "i", .num 1, "text", .null, q, "", []⟩)).history
      = [("c", ⟨true, "i", .num 1, "text", .null, "c", "", []⟩),
         ("b", ⟨true, "i", .num 1, "text", .null, "b", "", []⟩),
         ("a", ⟨true, "i", .num 1, "text", .null, "a", "", []⟩)] :=
  c3_history_prepend ⟨"", []⟩ "a" "b" "c" _
    (by decide) (by decide) (by decide)

/-! ## C4 -/

/-- C4: the zod schema gates submission; an input with `age = 17` fails
validation, so `mutation.mutate` is never reached and the `age` field is
the one in error. -/
theorem c4_age_rejected (p : PredictionInput) (h : p.age = 17) :
    formSubmit p = none ∧ ageFieldError p = true := by
  have hv : validatePrediction p = false := by
    simp [validatePrediction, h]
  constructor
  · simp [formSubmit, hv]
  · simp [ageFieldError, h]

/-- Witness for C4: the form defaults with `age` changed to 17. -/
theorem c4_witness :
    formSubmit ⟨23, 7, 3, 1, 250, 30, 10, 17, 250, 95, 0, 2, 1, 1, 0, 0, 75, 170, 26⟩
        = none ∧
    ageFieldError ⟨23, 7, 3, 1, 250, 30, 10, 17, 250, 95, 0, 2, 1, 1, 0, 0, 75, 170, 26⟩
        = true :=
  c4_age_rejected _ rfl

/-! ## C5 -/

/-- C5: a successful prediction submission replaces the displayed result by
the server response, whatever was displayed before — the outcome does not
depend on the previous display at all. -/
theorem c5_result_replaced (displayed : Option PredictionResult)
    (input : PredictionInput) (server : PredictionInput → PredictionResult)
    (h : validatePrediction input = true) :
    predictStep displayed input server = some (server input) := by
  unfold predictStep formSubmit
  rw [h]
  rfl

/-- Witness for C5: the form defaults, submitted while an older result is
displayed. -/
theorem c5_witness :
    predictStep
      (some ⟨2, "low", (1, 3), [], [], "old", "fallback", "t0"⟩)
      ⟨23, 7, 3, 1, 250, 30, 10, 35, 250, 95, 0, 2, 1, 1, 0, 0, 75, 170, 26⟩
      (fun _ => ⟨9, "high", (6, 12), [], [], "new", "llm", "t1"⟩)
      = some ⟨9, "high", (6, 12), [], [], "new", "llm", "t1"⟩ :=
  c5_result_replaced _ _ _ (by decide)

/-! ## C6 -/

/-- C6: a response whose `result_type` is none of the four recognized tags
falls through to the `default` branch, which renders the response's
`message` verbatim. -/
theorem c6_unrecognized_fallback (r : NLPQueryResponse)
    (h1 : r.result_type ≠ "table") (h2 : r.result_type ≠ "metric")
    (h3 : r.result_type ≠ "chart_data") (h4 : r.result_type ≠ "text") :
    renderResult r = .ok (.fallback r.message) := by
  simp [renderResult, h1, h2, h3, h4]

/-- Witness for C6 at `result_type = "summary"`. -/
theorem c6_witness :
    renderResult ⟨true, "i", .num 1, "summary", .obj [], "the message", "", []⟩
      = .ok (.fallback "the message") :=
  c6_unrecognized_fallback _ (by decide) (by decide) (by decide) (by decide)

/-! ## C8 -/

/-- C8: each table cell is the `labeled ?? snake ?? '-'` chain: a key that
is present with a non-nullish value wins in that order, and when neither
key is present the placeholder `'-'` appears.  (`renderRow` instantiates
this at the five column key pairs of the table.) -/
theorem c8_cell_key_fallback (fields : List (String × JVal)) (labeled snake : String) :
    (∀ v, fields.lookup labeled = some v → v.isNullish = false →
      pickCell (.obj fields) labeled snake = .ok v) ∧
    (((fields.lookup labeled).getD .undefined).isNullish = true →
      ∀ w, fields.lookup snake = some w → w.isNullish = false →
        pickCell (.obj fields) labeled snake = .ok w) ∧
    (fields.lookup labeled = none → fields.lookup snake = none →
      pickCell (.obj fields) labeled snake = .ok (.str "-")) := by
  refine ⟨?_, ?_, ?_⟩
  · intro v hv hnn
    simp [pickCell, getField, hv, hnn]
  · intro hnl w hw hnn
    simp [pickCell, getField, hnl, hw, hnn]
  · intro h1 h2
    simp [pickCell, getField, h1, h2, JVal.isNullish]

/-- Witness for C8: a labeled-key record, a snake_case record and an empty
record, one per conjunct. -/
theorem c8_witness :
    pickCell (.obj [("Age", .num 30)]) "Age" "age" = .ok (.num 30) ∧
    pickCell (.obj [("age", .num 25)]) "Age" "age" = .ok (.num 25) ∧
    pickCell (.obj []) "Age" "age" = .ok (.str "-") :=
  ⟨(c8_cell_key_fallback [("Age", .num 30)] "Age" "age").1 _ rfl rfl,
   (c8_cell_key_fallback [("age", .num 25)] "Age" "age").2.1 rfl _ rfl rfl,
   (c8_cell_key_fallback [] "Age" "age").2.2 rfl rfl⟩

/-! ## C9 -/

/-- C9: a rendered table shows exactly the rows of `records.slice(0, 10)`;
the row count is `min 10 n`, the "Showing 10 of n results" note appears
precisely when `n > 10`, and it carries the full record count. -/
theorem c9_table_truncation (records : List JVal) (rows : List TableRow)
    (note : Option Nat)
    (h : renderTable (.arr records) = .ok (.table rows note)) :
    exceptMapM renderRow (records.take 10) = .ok rows ∧
    rows.length = min 10 records.length ∧
    (10 < records.length → note = some records.length) ∧
    (records.length ≤ 10 → note = none) := by
  unfold renderTable at h
  by_cases h0 : records.length = 0
  · simp [h0] at h
  · simp only [h0, if_false, ite_false] at h
    cases hm : exceptMapM renderRow (records.take 10) with
    | error e => rw [hm] at h; simp at h
    | ok rs =>
      rw [hm] at h
      simp only [ok_bind, pure_ok, Except.ok.injEq, TableRender.table.injEq] at h
      obtain ⟨hrows, hnote⟩ := h
      subst hrows
      refine ⟨rfl, ?_, ?_, ?_⟩
      · rw [exceptMapM_length _ _ _ hm, List.length_take]
      · intro hgt
        rw [← hnote, if_pos (by omega)]
      · intro hle
        rw [← hnote, if_neg (by omega)]

/-- Witness for C9 at a 12-record payload: ten rendered rows and the
"Showing 10 of 12 results" note. -/
theorem c9_witness :
    exceptMapM renderRow ((List.replicate 12 (JVal.obj [])).take 10)
        = .ok (List.replicate 10
            (⟨.str "-", .str "-", .str "-", "-", .str "-"⟩ : TableRow)) ∧
    (List.replicate 10 (⟨.str "-", .str "-", .str "-", "-", .str "-"⟩ : TableRow)).length
        = min 10 (List.replicate 12 (JVal.obj [])).length ∧
    (10 < (List.replicate 12 (JVal.obj [])).length →
      (some 12 : Option Nat) = some (List.replicate 12 (JVal.obj [])).length) ∧
    ((List.replicate 12 (JVal.obj [])).length ≤ 10 →
      (some 12 : Option Nat) = none) :=
  c9_table_truncation (List.replicate 12 (JVal.obj []))
    (List.replicate 10 ⟨.str "-", .str "-", .str "-", "-", .str "-"⟩)
    (some 12) (by rfl)

/-! ## C10 -/

/-- C10: submitting a blank (empty or whitespace-only) query fires no
mutation — no request is sent and the state, in particular the history, is
unchanged; submitting a non-blank query sends exactly the trimmed query
text. -/
theorem c10_blank_query_no_call (s : NLPState) (server : String → NLPQueryResponse) :
    (jsTrim s.query = "" → submit s server = (s, none)) ∧
    (jsTrim s.query ≠ "" → (submit s server).2 = some (jsTrim s.query)) := by
  constructor
  · intro h
    simp [submit, h]
  · intro h
    simp [submit, h]

/-- Witness for C10: a whitespace-only query is dropped; a padded query is
sent trimmed. -/
theorem c10_witness :
    (submit ⟨"   ", []⟩ (fun q => ⟨true, "i", .num 1, "text", .null, q, "", []⟩)
      = (⟨"   ", []⟩, none)) ∧
    (submit ⟨" hello ", []⟩ (fun q => ⟨true, "i", .num 1, "text", .null, q, "", []⟩)).2
      = some (jsTrim " hello ") :=
  ⟨(c10_blank_query_no_call ⟨"   ", []⟩ _).1 (by decide),
   (c10_blank_query_no_call ⟨" hello ", []⟩ _).2 (by decide)⟩

/-! ## C7: totality analysis of the renderer -/

theorem nullFree_not_nullish {v : JVal} (h : nullFree v = true) :
    v.isNullish = false := by
  cases v <;> simp_all [nullFree, JVal.isNullish]

theorem nullFreeList_mem {xs : List JVal} (h : nullFreeList xs = true)
    {x : JVal} (hx : x ∈ xs) : nullFree x = true := by
  induction xs with
  | nil => cases hx
  | cons a as ih =>
    simp only [nullFreeList, Bool.and_eq_true] at h
    rcases List.mem_cons.mp hx with rfl | hx
    · exact h.1
    · exact ih h.2 hx

theorem nullFreeFields_mem {fs : List (String × JVal)} (h : nullFreeFields fs = true)
    {kv : String × JVal} (hkv : kv ∈ fs) : nullFree kv.2 = true := by
  induction fs with
  | nil => cases hkv
  | cons p ps ih =>
    obtain ⟨k, v⟩ := p
    simp only [nullFreeFields, Bool.and_eq_true] at h
    rcases List.mem_cons.mp hkv with rfl | hkv
    · exact h.1
    · exact ih h.2 hkv

theorem nullFreeFields_lookup {fs : List (String × JVal)} (h : nullFreeFields fs = true)
    {k : String} {v : JVal} (hv : fs.lookup k = some v) : nullFree v = true := by
  induction fs with
  | nil => cases hv
  | cons p ps ih =>
    obtain ⟨k1, v1⟩ := p
    simp only [nullFreeFields, Bool.and_eq_true] at h
    simp only [List.lookup] at hv
    cases hbeq : (k == k1) with
    | true => rw [hbeq] at hv; cases hv; exact h.1
    | false => rw [hbeq] at hv; exact ih h.2 hv

theorem jsEntries_nullFree {v : JVal} (h : nullFree v = true)
    {kv : String × JVal} (hkv : kv ∈ jsEntries v) : nullFree kv.2 = true := by
  cases v with
  | obj fs => exact nullFreeFields_mem (by simpa [nullFree] using h) hkv
  | arr xs =>
    simp only [jsEntries, List.mem_map] at hkv
    obtain ⟨p, hp, hpe⟩ := hkv
    have hx : p.2 ∈ xs := (List.of_mem_zip hp).2
    have := nullFreeList_mem (by simpa [nullFree] using h) hx
    rw [← hpe]
    exact this
  | str s =>
    simp only [jsEntries, List.mem_map] at hkv
    obtain ⟨p, _, hpe⟩ := hkv
    rw [← hpe]
    rfl
  | null => cases hkv
  | undefined => cases hkv
  | boolV b => cases hkv
  | num n => cases hkv
  | nan => cases hkv

theorem getFieldD_nullFree {v : JVal} (h : nullFree v = true) (k : String) :
    getFieldD v k = .undefined ∨ nullFree (getFieldD v k) = true := by
  cases v with
  | obj fs =>
    simp only [getFieldD]
    cases hl : fs.lookup k with
    | none => exact Or.inl rfl
    | some w =>
      exact Or.inr (nullFreeFields_lookup (by simpa [nullFree] using h) hl)
  | null => exact Or.inl rfl
  | undefined => exact Or.inl rfl
  | boolV b => exact Or.inl rfl
  | num n => exact Or.inl rfl
  | nan => exact Or.inl rfl
  | str s => exact Or.inl rfl
  | arr xs => exact Or.inl rfl

theorem pickCell_ok {r : JVal} (h : r.isNullish = false) (labeled snake : String) :
    ∃ v, pickCell r labeled snake = .ok v := by
  unfold pickCell
  rw [getField_eq_ok labeled h]
  simp only [ok_bind]
  split
  · rw [getField_eq_ok snake h]
    simp only [ok_bind]
    split
    · exact ⟨_, rfl⟩
    · exact ⟨_, rfl⟩
  · exact ⟨_, rfl⟩

theorem renderRow_ok {r : JVal} (h : r.isNullish = false) :
    ∃ row, renderRow r = .ok row := by
  unfold renderRow
  obtain ⟨v1, h1⟩ := pickCell_ok h "ID" "id"
  obtain ⟨v2, h2⟩ := pickCell_ok h "Age" "age"
  obtain ⟨v3, h3⟩ := pickCell_ok h "Service time" "service_time"
  obtain ⟨v4, h4⟩ := pickCell_ok h "Reason for absence" "reason_for_absence"
  obtain ⟨v5, h5⟩ := pickCell_ok h "Absenteeism time in hours" "absenteeism_hours"
  rw [h1, h2, h3, h4, h5]
  simp only [ok_bind]
  exact ⟨_, rfl⟩

theorem renderTable_ok {data : JVal} (h : nullFree data = true) :
    ∃ t, renderTable data = .ok t := by
  cases data with
  | arr records =>
    simp only [renderTable]
    by_cases h0 : records.length = 0
    · rw [if_pos h0]
      exact ⟨_, rfl⟩
    · rw [if_neg h0]
      have hall : ∀ x ∈ records.take 10, ∃ y, renderRow x = .ok y := by
        intro x hx
        exact renderRow_ok (nullFree_not_nullish
          (nullFreeList_mem (by simpa [nullFree] using h) (List.take_subset _ _ hx)))
      obtain ⟨rows, hrows⟩ := exceptMapM_ok_of_forall _ _ hall
      rw [hrows]
      simp only [ok_bind]
      exact ⟨_, rfl⟩
  | null => cases h
  | undefined => cases h
  | boolV b => exact ⟨_, rfl⟩
  | num n => exact ⟨_, rfl⟩
  | nan => exact ⟨_, rfl⟩
  | str s => exact ⟨_, rfl⟩
  | obj fs => exact ⟨_, rfl⟩

theorem renderMetric_ok {data : JVal} (h : data.isNullish = false) :
    ∃ m, renderMetric data = .ok m := by
  unfold renderMetric
  rw [getField_eq_ok "value" h]
  simp only [ok_bind]
  rw [getField_eq_ok "label" h]
  simp only [ok_bind]
  rw [getField_eq_ok "sample_size" h]
  simp only [ok_bind]
  exact ⟨_, rfl⟩

theorem chartPoints_ok {data : JVal} (h : nullFree data = true) :
    ∃ pts, chartPoints data = .ok pts := by
  have hnn := nullFree_not_nullish h
  unfold chartPoints
  rw [getField_eq_ok "type" hnn]
  simp only [ok_bind]
  split
  · rw [getField_eq_ok "groups" hnn]
    simp only [ok_bind]
    split
    · exact ⟨_, rfl⟩
    · exact ⟨_, rfl⟩
  · split
    · rw [getField_eq_ok "data" hnn]
      simp only [ok_bind]
      cases hd : getFieldD data "data" with
      | arr xs =>
        have hxs : nullFreeList xs = true := by
          rcases getFieldD_nullFree h "data" with h1 | h1
          · rw [hd] at h1; cases h1
          · rw [hd] at h1; simpa [nullFree] using h1
        apply exceptMapM_ok_of_forall
        intro x hx
        have hxnn : x.isNullish = false :=
          nullFree_not_nullish (nullFreeList_mem hxs hx)
        rw [getField_eq_ok "period" hxnn]
        simp only [ok_bind]
        rw [getField_eq_ok "mean" hxnn]
        exact ⟨_, rfl⟩
      | null => exact ⟨_, rfl⟩
      | undefined => exact ⟨_, rfl⟩
      | boolV b => exact ⟨_, rfl⟩
      | num n => exact ⟨_, rfl⟩
      | nan => exact ⟨_, rfl⟩
      | str s => exact ⟨_, rfl⟩
      | obj fs => exact ⟨_, rfl⟩
    · split
      · rw [getField_eq_ok "data" hnn]
        simp only [ok_bind]
        split
        · rename_i hcond
          have hdnf : nullFree (getFieldD data "data") = true := by
            rcases getFieldD_nullFree h "data" with h1 | h1
            · rw [h1] at hcond
              simp [JVal.truthy] at hcond
            · exact h1
          apply exceptMapM_ok_of_forall
          intro kv hkv
          have : kv.2.isNullish = false :=
            nullFree_not_nullish (jsEntries_nullFree hdnf hkv)
          rw [getField_eq_ok "mean" this]
          exact ⟨_, rfl⟩
        · exact ⟨_, rfl⟩
      · exact ⟨_, rfl⟩

theorem renderChart_ok {data : JVal} (h : nullFree data = true) :
    ∃ c, renderChart data = .ok c := by
  unfold renderChart
  obtain ⟨pts, hpts⟩ := chartPoints_ok h
  rw [hpts]
  simp only [ok_bind]
  split
  · exact ⟨_, rfl⟩
  · exact ⟨_, rfl⟩

/-- C7 counterexample: the claim fails on the code.  A `metric` response
with a `null` data payload makes `MetricResult` read `data.value` off
`null`, which throws a `TypeError` instead of rendering a placeholder. -/
theorem c7_counterexample :
    renderResult ⟨true, "average_metric", .num 90, "metric", .null,
                  "Average absence is 7.2 hours", "interp", []⟩
      = .error .typeError := rfl

/-- C7 (amended): the renderer never throws on a data payload that is free
of `null`/`undefined` — malformed but null-free payloads degrade to
placeholders (table, chart) or render raw fields (metric); with a nullish
payload the `metric` and `chart_data` branches throw a `TypeError`. -/
theorem c7_amended_total_on_nullfree (r : NLPQueryResponse)
    (h : nullFree r.data = true) :
    ∃ out, renderResult r = .ok out := by
  unfold renderResult
  by_cases h1 : r.result_type = "table"
  · rw [if_pos h1]
    obtain ⟨t, ht⟩ := renderTable_ok h
    rw [ht]
    simp only [ok_bind]
    exact ⟨_, rfl⟩
  · rw [if_neg h1]
    by_cases h2 : r.result_type = "metric"
    · rw [if_pos h2]
      obtain ⟨m, hm⟩ := renderMetric_ok (nullFree_not_nullish h)
      rw [hm]
      simp only [ok_bind]
      exact ⟨_, rfl⟩
    · rw [if_neg h2]
      by_cases h3 : r.result_type = "chart_data"
      · rw [if_pos h3]
        obtain ⟨c, hc⟩ := renderChart_ok h
        rw [hc]
        simp only [ok_bind]
        exact ⟨_, rfl⟩
      · rw [if_neg h3]
        by_cases h4 : r.result_type = "text"
        · rw [if_pos h4]
          exact ⟨_, rfl⟩
        · rw [if_neg h4]
          exact ⟨_, rfl⟩

/-- Witness for the amended C7: a null-free metric payload renders. -/
theorem c7_witness :
    nullFree (JVal.obj [("label", .str "Average absence"), ("value", .num 7)]) = true ∧
    ∃ out, renderResult ⟨true, "average_metric", .num 90, "metric",
        .obj [("label", .str "Average absence"), ("value", .num 7)],
        "msg", "interp", []⟩ = .ok out :=
  ⟨rfl, c7_amended_total_on_nullfree _ rfl⟩

end HRApp
